import Mathlib

/-!
Verification of the bulk mark reconciliation engine of the `sahi7/backend`
school record service. The definitions shallowly embed `src/core/models.py`,
`src/core/views.py` and `src/core/model_views.py`; decimal columns are embedded
as exact rationals, primary keys as naturals, timestamps as abstract
`Option Nat` instants. The theorems settle the specification claims about
the import pipeline, the batch committer, the authorization primitive and the
bulk upsert endpoint.
-/

namespace Rcms

/-- Embeds `core.models.Subject` restricted to the columns the engine reads. -/
structure Subject where
  id : Nat
  code : String
  coefficient : ℚ
  max_score : ℚ
deriving DecidableEq

/-- Embeds `core.models.Student`; `department` is the department primary key. -/
structure Student where
  id : Nat
  registration_number : String
  department : Nat
deriving DecidableEq

/-- Embeds `core.models.SubjectAssignment`. The related `Subject` row is
embedded in place, as every reader loads it via `select_related('subject')`. -/
structure SubjectAssignment where
  id : Nat
  subject : Subject
  department : Nat
  teacher : Option Nat
  term : Option Nat
deriving DecidableEq

/-- Role choices of `core.models.User`. -/
inductive Role where
  | principal
  | teacher
  | student
  | parent
deriving DecidableEq

/-- Embeds `core.models.User` restricted to the fields the engine reads;
`taught_subjects` holds subject primary keys. -/
structure User where
  id : Nat
  role : Role
  taught_subjects : List Nat
deriving DecidableEq

/-- Embeds `core.models.Mark`. `entered_at` is omitted: it is set once at
creation and never read or rewritten by the code paths under verification. -/
structure Mark where
  student : Nat
  subject_assignment : Nat
  score : ℚ
  total_mark : ℚ
  comment : String
  entered_by : Option Nat
  modified_by : Option Nat
  modified_at : Option Nat
deriving DecidableEq

/-- Snapshot of the reference rows the engine reads from the entity store. -/
structure Db where
  students : List Student
  subjects : List Subject
  assignments : List SubjectAssignment
deriving DecidableEq

/-- Embeds `User.can_edit_marks` (src/core/models.py lines 20-30): a principal
always may; a teacher may iff the subject is among their taught subjects and
some `SubjectAssignment` row binds (this subject, this department, this
teacher) - the `term` column is not constrained; student and parent roles fall
through to `False`. -/
def can_edit_marks (db : Db) (self : User) (subject : Subject) (department : Nat) : Bool :=
  match self.role with
  | Role.principal => true
  | Role.teacher =>
      let is_taught := self.taught_subjects.contains subject.id
      if is_taught then
        db.assignments.any fun a =>
          a.subject.id == subject.id && a.department == department && a.teacher == some self.id
      else false
  | _ => false

/-- Embeds the Python slice `s[:n]` on a string (by code point). -/
def pyTake (s : String) (n : Nat) : String :=
  ⟨s.data.take n⟩

/-- A row after the cleaning block of lines 187-194. -/
structure CleanRow where
  student_number : String
  subject_name : Option String
  subject_code : String
  score : Option ℚ
  comment : String
deriving DecidableEq

/-- Row-level error kinds, one per `row_errors.append` site in
`ExcelMarkImportView.post` (lines 252, 258, 263, 272, 279). The `row` argument
is the 2-based spreadsheet row number `idx + 2` reported by the source. -/
inductive RowError where
  | studentNotFound (row : Nat) (reg : String)
  | subjectNotFound (row : Nat) (code : String)
  | scoreOutOfRange (row : Nat) (score maxScore : ℚ)
  | noAssignment (row : Nat) (code : String) (department : Nat)
  | forbidden (row : Nat) (code : String) (department : Nat)
deriving DecidableEq

/-- The data assembled for a row that survived every validation step
(`mark_data` of lines 286-297, before the existing-mark decision). -/
structure PlannedMark where
  student : Student
  assignment : SubjectAssignment
  score : ℚ
  total_mark : ℚ
  comment : String
deriving DecidableEq

/-- Embeds the `(subject code, department id) -> assignment` dict of lines
224-236: assignments of the requested term whose subject code occurs in the
file, optionally narrowed to one assignment id. A Python dict comprehension
keeps the last list element for a repeated key, hence `getLast?`. -/
def assignmentLookup (db : Db) (termId : Nat) (onlyAssignment : Option Nat)
    (codes : List String) (code : String) (department : Nat) : Option SubjectAssignment :=
  ((db.assignments.filter fun a =>
      a.term == some termId && codes.contains a.subject.code &&
        (match onlyAssignment with
         | none => true
         | some i => a.id == i)).filter fun a =>
    a.subject.code == code && a.department == department).getLast?

/-- Embeds the permission test of lines 276-279. The view feeds the async
method `can_edit_marks` to `asyncio.to_thread`, so the awaited value is the
un-awaited coroutine object itself; a coroutine object is always truthy, hence
`not await asyncio.to_thread(...)` is always false and the Forbidden branch is
unreachable. This definition records the truth value the view branches on. -/
def canEditMarksCallTruthy (_self : User) (_subject : Subject) (_department : Nat) : Bool :=
  true

/-- Embeds the store-independent part of the row loop (lines 243-297): resolve
the student by registration number and the subject by code against the
pre-fetched mappings, check the score range, resolve the assignment for
(subject code, student department), run the (vacuous) permission test, and
assemble the mark data with `total_mark = score * assignment.subject.coefficient`.
`idx` is the 0-based dataframe index of the row, preserved by `dropna`. The
exact rational product is the line-288 multiplication on an integer-typed
score column (Python `int * Decimal`); when the column is float-typed the
same line raises `TypeError` instead, which `excelMarkImport` surfaces as its
`uncaughtTypeError` outcome before any planned record is consumed. -/
def rowCheck (db : Db) (user : User) (termId : Nat) (onlyAssignment : Option Nat)
    (codes : List String) (idx : Nat) (row : CleanRow) (score : ℚ) :
    RowError ⊕ PlannedMark :=
  match db.students.find? (fun s => s.registration_number == row.student_number) with
  | none => Sum.inl (RowError.studentNotFound (idx + 2) row.student_number)
  | some student =>
    match db.subjects.find? (fun s => s.code == row.subject_code) with
    | none => Sum.inl (RowError.subjectNotFound (idx + 2) row.subject_code)
    | some subject =>
      if ¬ (0 ≤ score ∧ score ≤ subject.max_score) then
        Sum.inl (RowError.scoreOutOfRange (idx + 2) score subject.max_score)
      else
        match assignmentLookup db termId onlyAssignment codes row.subject_code
            student.department with
        | none => Sum.inl (RowError.noAssignment (idx + 2) row.subject_code student.department)
        | some assignment =>
          if ¬ canEditMarksCallTruthy user assignment.subject assignment.department then
            Sum.inl (RowError.forbidden (idx + 2) row.subject_code student.department)
          else
            Sum.inr { student := student, assignment := assignment, score := score,
                      total_mark := score * assignment.subject.coefficient,
                      comment := row.comment }

/-- Embeds `Mark.objects.filter(student=..., subject_assignment=...).afirst()`:
the first stored mark for the key, in store order. -/
def findMark : List Mark → Nat → Nat → Option Mark
  | [], _, _ => none
  | m :: rest, sid, aid =>
    if m.student = sid ∧ m.subject_assignment = aid then some m else findMark rest sid aid

/-- The rewrite of an existing mark produced by the update branch (lines
299-305): all `mark_data` fields are overwritten (including `entered_by`),
`modified_by` is set to the acting user, and `modified_at` is assigned the
literal `None`: the source comments `# auto_now`, but `Mark.modified_at` has
no `auto_now` option, so `None` is what the committer later writes. The
comment is truncated to 500 characters. -/
def updMark (user : User) (p : PlannedMark) (existing : Mark) : Mark :=
  { existing with
    score := p.score
    total_mark := p.total_mark
    comment := pyTake p.comment 500
    entered_by := some user.id
    modified_by := some user.id
    modified_at := none }

/-- The fresh mark produced by the create branch (lines 306-308):
`modified_by` is `None`. -/
def newMark (user : User) (p : PlannedMark) : Mark :=
  { student := p.student.id
    subject_assignment := p.assignment.id
    score := p.score
    total_mark := p.total_mark
    comment := pyTake p.comment 500
    entered_by := some user.id
    modified_by := none
    modified_at := none }

/-- Overwrite of the `update_fields` of the
`bulk_create(update_conflicts=True, ...)` call (lines 112-118) applied to a
conflicting stored row: `modified_at` and `entered_at` are not rewritten. -/
def applyCreate (m c : Mark) : Mark :=
  { m with
    score := c.score
    total_mark := c.total_mark
    comment := c.comment
    entered_by := c.entered_by
    modified_by := c.modified_by }

/-- Overwrite of the field list of the `bulk_update` call (lines 119-123). -/
def applyUpdate (m u : Mark) : Mark :=
  { m with
    score := u.score
    total_mark := u.total_mark
    comment := u.comment
    entered_by := u.entered_by
    modified_by := u.modified_by
    modified_at := u.modified_at }

/-- Rewrite the first stored mark carrying the key `(ks, ka)` by `f`. -/
def rewriteFirst (f : Mark → Mark) (ks ka : Nat) : List Mark → List Mark
  | [] => []
  | m :: rest =>
    if m.student = ks ∧ m.subject_assignment = ka then f m :: rest
    else m :: rewriteFirst f ks ka rest

/-- Rewrite the first stored mark carrying the key of `c` by its
conflict-update. -/
def onConflictUpdate (s : List Mark) (c : Mark) : List Mark :=
  rewriteFirst (fun m => applyCreate m c) c.student c.subject_assignment s

/-- One row of `bulk_create(update_conflicts=True,
unique_fields=['student', 'subject_assignment'])`: insert the row, or on a key
conflict overwrite the `update_fields` of the conflicting stored row. -/
def bulkCreateOne (s : List Mark) (c : Mark) : List Mark :=
  match findMark s c.student c.subject_assignment with
  | some _ => onConflictUpdate s c
  | none => s ++ [c]

/-- One row of the `bulk_update` call: rewrite the listed fields of the stored
row the update instance was loaded from. The instance was obtained by `afirst`
on its key, so its primary key is that of the first stored row with the key. -/
def bulkUpdateOne (s : List Mark) (u : Mark) : List Mark :=
  rewriteFirst (fun m => applyUpdate m u) u.student u.subject_assignment s

/-- The planned record of one row, when the row passes validation; this is
independent of the mark store. -/
def planOf (db : Db) (user : User) (termId : Nat) (onlyAssignment : Option Nat)
    (codes : List String) (x : Nat × CleanRow × ℚ) : Option PlannedMark :=
  match rowCheck db user termId onlyAssignment codes x.1 x.2.1 x.2.2 with
  | Sum.inl _ => none
  | Sum.inr p => some p

/-- A Python number as the dynamic typing of line 288 and of a JSON score
sees it: an `int`, or an IEEE `float` (which is what a fractional JSON number
or a float-typed pandas column yields). -/
inductive PyNumber where
  | int (n : ℤ)
  | float (x : ℚ)
deriving DecidableEq

/-- Modelled from CPython semantics (decimal module): `decimal.Decimal`
refuses mixed arithmetic with `float` - `float * Decimal` raises `TypeError` -
while `int * Decimal` is exact. This is the dynamic behaviour of the
expression `score * assignment.subject.coefficient` at views.py line 288 and
of the `Mark.save` recomputation at models.py lines 115-117, where the
coefficient is a `DecimalField` value; `none` stands for the raised
`TypeError`, which neither caller catches. -/
def pyMulDecimal : PyNumber → ℚ → Option ℚ
  | PyNumber.int n, c => some (n * c)
  | PyNumber.float _, _ => none

/-- The rational value a Python number carries. -/
def PyNumber.val : PyNumber → ℚ
  | PyNumber.int n => (n : ℚ)
  | PyNumber.float x => x

/-- One payload item of `POST /api/marks/bulk-upsert/` as a JSON object.
`student` and `subject_assignment` are the keys `MarkCreateSerializer`
declares; `student_id` and `assignment_id` are the keys the view body reads
(and the only ones its docstring documents); an item may carry any subset.
A JSON score arrives as a Python `int` when integral and as a `float` when
fractional. -/
structure BulkItem where
  student : Option Nat
  subject_assignment : Option Nat
  student_id : Option Nat
  assignment_id : Option Nat
  score : Option PyNumber
  comment : Option String
deriving DecidableEq

/-- Embeds `MarkCreateSerializer.is_valid` (src/core/serializers.py lines
159-173) on one item: `student` and `subject_assignment` are required model
relations that must resolve, `score` is required, and `validate_score` rejects
a score above the assignment subject's `max_score` (silently skipped when the
`subject_assignment` value does not resolve). -/
def markCreateSerializerValid (db : Db) (item : BulkItem) : Bool :=
  (match item.student with
   | some sid => db.students.any fun s => s.id == sid
   | none => false) &&
  (match item.subject_assignment with
   | some aid => db.assignments.any fun a => a.id == aid
   | none => false) &&
  (match item.score with
   | none => false
   | some q =>
     match item.subject_assignment with
     | some aid =>
       match db.assignments.find? (fun a => a.id == aid) with
       | some a => decide (q.val ≤ a.subject.max_score)
       | none => true
     | none => true)

/-- Replace the first stored mark carrying the given mark's key. -/
def replaceMark : List Mark → Mark → List Mark
  | [], _ => []
  | m :: rest, u =>
    if m.student = u.student ∧ m.subject_assignment = u.subject_assignment then
      u :: rest
    else m :: replaceMark rest u

/-- Embeds `Mark.objects.aupdate_or_create(student_id=..., subject_assignment_id=...,
defaults={'score', 'comment', 'entered_by'})` (src/core/model_views.py lines
223-231) followed by `Mark.save`, which recomputes `total_mark` as
`self.score * self.subject_assignment.subject.coefficient` (src/core/models.py
lines 115-117). `modified_by` and `modified_at` are not among the defaults and
stay untouched. The saved score is the raw `item['score']` JSON value - the
view does not use the serializer's validated data - so a fractional JSON score
is a Python `float`, and the recomputation multiplies it by the `Decimal`
coefficient: `pyMulDecimal`, whose `none` models the `TypeError` that raises
out of `save` (the request fails, as it also does when the assignment id does
not resolve and the save cannot derive `total_mark`). The boolean is
`was_created`. -/
def update_or_create_mark (db : Db) (user : User) (store : List Mark)
    (sid aid : Nat) (score : PyNumber) (comment : String) : Option (List Mark × Bool) :=
  match db.assignments.find? (fun a => a.id == aid) with
  | none => none
  | some a =>
    match pyMulDecimal score a.subject.coefficient with
    | none => none
    | some total =>
      match findMark store sid aid with
      | some m =>
          some (replaceMark store
            { m with
              score := score.val
              comment := comment
              entered_by := some user.id
              total_mark := total }, false)
      | none =>
          some (store ++
            [{ student := sid
               subject_assignment := aid
               score := score.val
               total_mark := total
               comment := comment
               entered_by := some user.id
               modified_by := none
               modified_at := none }], true)

/-- Response of the bulk upsert endpoint: counts, the 1-based indices of the
items whose serializer errors were collected under the key "row N", and the
HTTP status (line 242: 200 iff no item errored). -/
structure BulkResponse where
  created : Nat
  updated : Nat
  errorRows : List Nat
  status : Nat
deriving DecidableEq

/-- The item loop of `MarkViewSet.bulk_upsert` (src/core/model_views.py lines
210-235). `none` models an uncaught exception: a KeyError reading
`item['student_id']`, `item['assignment_id']` or `item['score']`, an
unresolvable assignment inside the upsert, or the `TypeError` that
`Mark.save` raises when a float-valued score meets the `Decimal`
coefficient. -/
def bulkUpsertGo (db : Db) (user : User) :
    List (Nat × BulkItem) → List Nat → Nat → Nat → List Mark →
    Option (List Nat × Nat × Nat × List Mark)
  | [], errs, c, u, store => some (errs, c, u, store)
  | (i, item) :: rest, errs, c, u, store =>
    if markCreateSerializerValid db item then
      match item.student_id, item.assignment_id, item.score with
      | some sid, some aid, some q =>
        match update_or_create_mark db user store sid aid q (item.comment.getD "") with
        | none => none
        | some (store2, wasCreated) =>
          if wasCreated then bulkUpsertGo db user rest errs (c + 1) u store2
          else bulkUpsertGo db user rest errs c (u + 1) store2
      | _, _, _ => none
    else
      bulkUpsertGo db user rest (errs ++ [i + 1]) c u store

/-- Embeds `MarkViewSet.bulk_upsert` (src/core/model_views.py lines 198-242). -/
def bulk_upsert (db : Db) (user : User) (items : List BulkItem) (store : List Mark) :
    Option (BulkResponse × List Mark) :=
  (bulkUpsertGo db user items.enum [] 0 0 store).map fun r =>
    ({ created := r.2.1
       updated := r.2.2.1
       errorRows := r.1
       status := if r.1.isEmpty then 200 else 400 }, r.2.2.2)

/-- The score, derived total and comment of a stored mark. -/
def projSC (m : Mark) : ℚ × ℚ × String :=
  (m.score, m.total_mark, m.comment)

/-- Last element of the list whose key is `(sid, aid)`. -/
def lastWith : List Mark → Nat → Nat → Option Mark
  | [], _, _ => none
  | m :: rest, sid, aid =>
    match lastWith rest sid aid with
    | some r => some r
    | none => if m.student = sid ∧ m.subject_assignment = aid then some m else none

/-- The mark fields a planned record persists. -/
def projPlan (p : PlannedMark) : ℚ × ℚ × String :=
  (p.score, p.total_mark, pyTake p.comment 500)

/-! Auxiliary lemmas about the store primitives. -/

theorem projSC_applyCreate (m c : Mark) : projSC (applyCreate m c) = projSC c := rfl

theorem projSC_applyUpdate (m u : Mark) : projSC (applyUpdate m u) = projSC u := rfl

theorem projSC_updMark (user : User) (p : PlannedMark) (ex : Mark) :
    projSC (updMark user p ex) = projPlan p := rfl

theorem projSC_newMark (user : User) (p : PlannedMark) :
    projSC (newMark user p) = projPlan p := rfl

theorem isSome_map_projSC (o : Option Mark) : (o.map projSC).isSome = o.isSome := by
  cases o <;> rfl

theorem isSome_map_projPlan (o : Option PlannedMark) :
    (o.map projPlan).isSome = o.isSome := by
  cases o <;> rfl

theorem findMark_rewriteFirst (f : Mark → Mark) (ks ka : Nat)
    (hf : ∀ m, (f m).student = m.student ∧ (f m).subject_assignment = m.subject_assignment)
    (s : List Mark) (sid aid : Nat) :
    findMark (rewriteFirst f ks ka s) sid aid =
      if ks = sid ∧ ka = aid then (findMark s sid aid).map f
      else findMark s sid aid := by
  induction s with
  | nil =>
    simp only [rewriteFirst, findMark]
    split <;> rfl
  | cons m rest ih =>
    rw [rewriteFirst]
    by_cases hmk : m.student = ks ∧ m.subject_assignment = ka
    · rw [if_pos hmk, findMark, findMark]
      by_cases hkk : ks = sid ∧ ka = aid
      · have hm2 : m.student = sid ∧ m.subject_assignment = aid :=
          ⟨hmk.1.trans hkk.1, hmk.2.trans hkk.2⟩
        have hfm2 : (f m).student = sid ∧ (f m).subject_assignment = aid :=
          ⟨(hf m).1.trans hm2.1, (hf m).2.trans hm2.2⟩
        rw [if_pos hfm2, if_pos hkk, if_pos hm2]
        rfl
      · have hm2 : ¬(m.student = sid ∧ m.subject_assignment = aid) := by
          intro h2
          exact hkk ⟨hmk.1.symm.trans h2.1, hmk.2.symm.trans h2.2⟩
        have hfm2 : ¬((f m).student = sid ∧ (f m).subject_assignment = aid) := by
          intro h2
          exact hm2 ⟨(hf m).1.symm.trans h2.1, (hf m).2.symm.trans h2.2⟩
        rw [if_neg hfm2, if_neg hkk, if_neg hm2]
    · rw [if_neg hmk, findMark, findMark, ih]
      by_cases hm2 : m.student = sid ∧ m.subject_assignment = aid
      · have hkk : ¬(ks = sid ∧ ka = aid) := by
          intro hkk
          exact hmk ⟨hm2.1.trans hkk.1.symm, hm2.2.trans hkk.2.symm⟩
        simp [hm2.1, hm2.2, hkk]
      · by_cases hkk : ks = sid ∧ ka = aid
        · simp [hm2, hkk.1, hkk.2]
        · simp [hm2, hkk]

theorem findMark_onConflictUpdate (s : List Mark) (c : Mark) (sid aid : Nat) :
    findMark (onConflictUpdate s c) sid aid =
      if c.student = sid ∧ c.subject_assignment = aid then
        (findMark s sid aid).map (fun m => applyCreate m c)
      else findMark s sid aid :=
  findMark_rewriteFirst (fun m => applyCreate m c) c.student c.subject_assignment
    (fun _ => ⟨rfl, rfl⟩) s sid aid

theorem findMark_append_one (s : List Mark) (c : Mark) (sid aid : Nat) :
    findMark (s ++ [c]) sid aid =
      match findMark s sid aid with
      | some m => some m
      | none =>
        if c.student = sid ∧ c.subject_assignment = aid then some c else none := by
  induction s with
  | nil => rfl
  | cons a rest ih =>
    rw [List.cons_append, findMark, findMark]
    by_cases hak : a.student = sid ∧ a.subject_assignment = aid
    · rw [if_pos hak, if_pos hak]
    · rw [if_neg hak, if_neg hak, ih]

theorem findMark_bulkCreateOne_proj (s : List Mark) (c : Mark) (sid aid : Nat) :
    (findMark (bulkCreateOne s c) sid aid).map projSC =
      if c.student = sid ∧ c.subject_assignment = aid then some (projSC c)
      else (findMark s sid aid).map projSC := by
  unfold bulkCreateOne
  cases hfc : findMark s c.student c.subject_assignment with
  | some w =>
    show (findMark (onConflictUpdate s c) sid aid).map projSC = _
    rw [findMark_onConflictUpdate]
    by_cases hck : c.student = sid ∧ c.subject_assignment = aid
    · rw [if_pos hck, if_pos hck]
      have hw : findMark s sid aid = some w := by rw [← hck.1, ← hck.2]; exact hfc
      rw [hw]
      rfl
    · rw [if_neg hck, if_neg hck]
  | none =>
    show (findMark (s ++ [c]) sid aid).map projSC = _
    rw [findMark_append_one]
    by_cases hck : c.student = sid ∧ c.subject_assignment = aid
    · have hn : findMark s sid aid = none := by rw [← hck.1, ← hck.2]; exact hfc
      rw [hn, if_pos hck, if_pos hck]
      rfl
    · rw [if_neg hck, if_neg hck]
      cases hx : findMark s sid aid <;> rfl

theorem findMark_bulkCreateOne_isSome (s : List Mark) (c : Mark) (sid aid : Nat) :
    (findMark (bulkCreateOne s c) sid aid).isSome =
      if c.student = sid ∧ c.subject_assignment = aid then true
      else (findMark s sid aid).isSome := by
  rw [← isSome_map_projSC (findMark (bulkCreateOne s c) sid aid), findMark_bulkCreateOne_proj]
  by_cases hck : c.student = sid ∧ c.subject_assignment = aid
  · rw [if_pos hck, if_pos hck]
    rfl
  · rw [if_neg hck, if_neg hck, isSome_map_projSC]

theorem findMark_bulkUpdateOne (s : List Mark) (u : Mark) (sid aid : Nat) :
    findMark (bulkUpdateOne s u) sid aid =
      if u.student = sid ∧ u.subject_assignment = aid then
        (findMark s sid aid).map (fun m => applyUpdate m u)
      else findMark s sid aid :=
  findMark_rewriteFirst (fun m => applyUpdate m u) u.student u.subject_assignment
    (fun _ => ⟨rfl, rfl⟩) s sid aid

theorem foldCreate_proj (cs : List Mark) (s : List Mark) (sid aid : Nat) :
    (findMark (cs.foldl bulkCreateOne s) sid aid).map projSC =
      match lastWith cs sid aid with
      | some c => some (projSC c)
      | none => (findMark s sid aid).map projSC := by
  induction cs generalizing s with
  | nil => rfl
  | cons c t ih =>
    rw [List.foldl_cons, ih]
    simp only [lastWith]
    cases hlt : lastWith t sid aid with
    | some r => rfl
    | none =>
      rw [findMark_bulkCreateOne_proj]
      by_cases hck : c.student = sid ∧ c.subject_assignment = aid
      · rw [if_pos hck, if_pos hck]
      · rw [if_neg hck, if_neg hck]

theorem foldUpdate_proj (us : List Mark) (s : List Mark) (sid aid : Nat) :
    (findMark (us.foldl bulkUpdateOne s) sid aid).map projSC =
      match findMark s sid aid, lastWith us sid aid with
      | none, _ => none
      | some m, none => some (projSC m)
      | some _, some u => some (projSC u) := by
  induction us generalizing s with
  | nil =>
    simp only [List.foldl_nil]
    cases findMark s sid aid <;> rfl
  | cons u t ih =>
    rw [List.foldl_cons, ih]
    simp only [lastWith]
    rw [findMark_bulkUpdateOne]
    by_cases hck : u.student = sid ∧ u.subject_assignment = aid
    · rw [if_pos hck]
      cases hs : findMark s sid aid with
      | none =>
        cases hlt : lastWith t sid aid with
        | some r => rfl
        | none => rw [if_pos hck]; rfl
      | some m =>
        cases hlt : lastWith t sid aid with
        | some r => rfl
        | none => rw [if_pos hck]; rfl
    · rw [if_neg hck]
      cases hs : findMark s sid aid with
      | none =>
        cases hlt : lastWith t sid aid with
        | some r => rfl
        | none => rw [if_neg hck]
      | some m =>
        cases hlt : lastWith t sid aid with
        | some r => rfl
        | none => rw [if_neg hck]

theorem foldCreate_isSome (cs : List Mark) (s : List Mark) (sid aid : Nat) :
    (findMark (cs.foldl bulkCreateOne s) sid aid).isSome =
      ((lastWith cs sid aid).isSome || (findMark s sid aid).isSome) := by
  rw [← isSome_map_projSC (findMark (cs.foldl bulkCreateOne s) sid aid), foldCreate_proj]
  cases lastWith cs sid aid with
  | some c => rfl
  | none => rw [isSome_map_projSC]; rfl

theorem foldUpdate_isSome (us : List Mark) (s : List Mark) (sid aid : Nat) :
    (findMark (us.foldl bulkUpdateOne s) sid aid).isSome = (findMark s sid aid).isSome := by
  rw [← isSome_map_projSC (findMark (us.foldl bulkUpdateOne s) sid aid), foldUpdate_proj]
  cases findMark s sid aid <;> cases lastWith us sid aid <;> rfl

theorem planOf_eq_some {db : Db} {user : User} {termId : Nat} {oa : Option Nat}
    {codes : List String} {x : Nat × CleanRow × ℚ} {p : PlannedMark}
    (h : rowCheck db user termId oa codes x.1 x.2.1 x.2.2 = Sum.inr p) :
    planOf db user termId oa codes x = some p := by
  unfold planOf
  rw [h]

theorem mem_plansOf_of_rowCheck (db : Db) (user : User) (termId : Nat) (oa : Option Nat)
    (codes : List String) (l : List (Nat × CleanRow × ℚ)) (x : Nat × CleanRow × ℚ)
    (p : PlannedMark) (hx : x ∈ l)
    (h : rowCheck db user termId oa codes x.1 x.2.1 x.2.2 = Sum.inr p) :
    p ∈ l.filterMap (planOf db user termId oa codes) :=
  List.mem_filterMap.mpr ⟨x, hx, planOf_eq_some h⟩

/-- A subject with coefficient 2 and maximum score 20. -/
def subjMath : Subject := ⟨100, "MATH", 2, 20⟩

/-- The assignment binding MATH to department 10 for term 3, teacher 7. -/
def asgnMath : SubjectAssignment := ⟨50, subjMath, 10, some 7, some 3⟩

/-- Two enrolled students and the MATH assignment. -/
def demoDb : Db := ⟨[⟨1, "S1", 10⟩, ⟨2, "S2", 10⟩], [subjMath], [asgnMath]⟩

/-- A principal. -/
def principal7 : User := ⟨7, Role.principal, []⟩

/-- A bulk-upsert item of the shape the endpoint docstring documents; its
fractional JSON score 18.5 arrives as a Python float. -/
def item8 : BulkItem := ⟨none, none, some 1, some 50, some (PyNumber.float (37 / 2)), some "Good"⟩

/-- C8 (code bug): an item of exactly the documented shape {student_id,
assignment_id, score, comment} fails `MarkCreateSerializer` validation (the
serializer requires the keys `student` and `subject_assignment`), so the
endpoint upserts nothing, reports the item under "row 1" and returns 400 -
no item of the documented shape is ever upserted. -/
theorem C8_code_bug :
    markCreateSerializerValid demoDb item8 = false ∧
    bulk_upsert demoDb principal7 [item8] [] = some (⟨0, 0, [1], 400⟩, []) := by
  with_unfolding_all decide

/-- C9: `can_edit_marks` returns true exactly when the user is a principal, or
is a teacher whose taught subjects include the subject and for whom some
`SubjectAssignment` row binds (subject, department, teacher) - with no
constraint on the term; students and parents (any other role) get false. The
embedding is a pure function of the store snapshot, matching the read-only
queries of the source. -/
theorem C9_can_edit_marks_spec (db : Db) (u : User) (subject : Subject)
    (department : Nat) :
    can_edit_marks db u subject department = true ↔
      (u.role = Role.principal ∨
        (u.role = Role.teacher ∧ subject.id ∈ u.taught_subjects ∧
          ∃ a ∈ db.assignments, a.subject.id = subject.id ∧ a.department = department ∧
            a.teacher = some u.id)) := by
  obtain ⟨uid, urole, utaught⟩ := u
  cases urole with
  | principal => simp [can_edit_marks]
  | teacher =>
    by_cases ht : subject.id ∈ utaught
    · have hc : List.contains utaught subject.id = true := List.elem_eq_true_of_mem ht
      simp [can_edit_marks, hc, ht, List.any_eq_true, Bool.and_eq_true, beq_iff_eq,
        and_assoc]
    · have hc : List.contains utaught subject.id = false := by
        cases hcc : List.contains utaught subject.id with
        | false => rfl
        | true => exact absurd (List.mem_of_elem_eq_true hcc) ht
      simp [can_edit_marks, hc, ht]
  | student => simp [can_edit_marks]
  | parent => simp [can_edit_marks]

end Rcms
